import Mathlib

/-!
# Verification of the Serena agent orchestration substrate

Shallow embedding of the orchestration code of the repository:
* `app/main.py` — the realtime transport multiplexer (outbound event → client
  frame translation, inbound client frame handling) and the artifact
  retrieval endpoint;
* `app/services/bq_agent/agent.py` — `execute_sql_pipeline`;
* `app/services/visualization_agent/agent.py` — `execute_visualization_pipeline`;
* `app/services/poster_agent/agent.py` — `call_poster_agent`.

Python dictionaries are modelled as ordered association lists (insertion
order, first binding wins on lookup, mirroring the single-binding Python
dict); Python values as the inductive `JValue`; Python truthiness as
`truthyJ`; client frames (the JSON objects sent over the websocket) as
association lists from field name to `JValue`.
-/

namespace Serena

/-- Python/JSON values as they appear in tool-result dicts, session state and
client frames. `jnum` carries an integer (no floating point appears in the
modelled code paths). -/
inductive JValue where
  | jnull : JValue
  | jbool : Bool → JValue
  | jnum : Int → JValue
  | jstr : String → JValue
  | jarr : List JValue → JValue
  | jobj : List (String × JValue) → JValue

/-- Lookup in an association list (Python dict / keyed store), first binding
wins. -/
def assocLookup {α β : Type} [DecidableEq α] : List (α × β) → α → Option β
  | [], _ => none
  | (a, b) :: rest, k => if a = k then some b else assocLookup rest k

/-- Python truthiness of a value: `None`, `False`, `0`, `""`, `[]`, `{}` are
falsy, everything else truthy. -/
def truthyJ : JValue → Bool
  | .jnull => false
  | .jbool b => b
  | .jnum n => decide (n ≠ 0)
  | .jstr s => decide (s ≠ "")
  | .jarr xs => !xs.isEmpty
  | .jobj fs => !fs.isEmpty

/-- Truthiness of an optional boolean (Python `Optional[bool]`): `None` is
falsy. -/
def truthyOptBool : Option Bool → Bool
  | none => false
  | some b => b

/-- A single-quote character, used by Python `repr` of strings. -/
def pyQuote : String := String.mk [Char.ofNat 39]

mutual

/-- Python `repr` of a value (used by `str()` on containers): strings are
single-quoted, `None`/`True`/`False` spelled as in Python, lists in brackets,
dicts in braces. -/
def pyRepr : JValue → String
  | .jnull => "None"
  | .jbool true => "True"
  | .jbool false => "False"
  | .jnum n => toString n
  | .jstr s => pyQuote ++ s ++ pyQuote
  | .jarr xs => "[" ++ pyReprElems xs ++ "]"
  | .jobj fs => "\x7b" ++ pyReprFields fs ++ "\x7d"

/-- Comma-separated `repr`s of list elements. -/
def pyReprElems : List JValue → String
  | [] => ""
  | [x] => pyRepr x
  | x :: xs => pyRepr x ++ ", " ++ pyReprElems xs

/-- Comma-separated `'key': repr(value)` renderings of dict fields. -/
def pyReprFields : List (String × JValue) → String
  | [] => ""
  | [(k, v)] => pyQuote ++ k ++ pyQuote ++ ": " ++ pyRepr v
  | (k, v) :: fs => pyQuote ++ k ++ pyQuote ++ ": " ++ pyRepr v ++ ", " ++ pyReprFields fs

end

/-- Python `str()` of a value, as used by f-string interpolation: a string
renders as itself, every other value as its `repr`-style rendering. -/
def pyStr : JValue → String
  | .jstr s => s
  | v => pyRepr v

/-- `result_data.get(key)` on a parsed tool result: dict lookup, `None`
(`jnull`) when the key is absent or the value is not a dict. -/
def dictGet (d : JValue) (k : String) : JValue :=
  match d with
  | .jobj fs => (assocLookup fs k).getD .jnull
  | _ => .jnull

/-- `isinstance(result_data, dict)`. -/
def isDict : JValue → Bool
  | .jobj _ => true
  | _ => false

/-- Python `==` between a value and a string literal: only the equal string
compares equal, any other value (or different string) compares unequal. -/
def pyEqStr (v : JValue) (s : String) : Bool :=
  match v with
  | .jstr t => decide (t = s)
  | _ => false

/-!
## Base64 (RFC 4648, standard alphabet with padding)

Models the Python standard library calls used by `app/main.py`:
`base64.b64encode(audio_data_bytes).decode("ascii")` on the outbound audio
path and `base64.b64decode(data)` on the inbound `audio/pcm` path. Bytes are
naturals below 256. `b64decodeChars` is total; Python's `b64decode` raises on
malformed input (handled by the generic exception branch of the inbound pump),
which no modelled claim exercises.
-/

/-- The 64-character standard base64 alphabet. -/
def b64Table : List Char :=
  ['A', 'B', 'C', 'D', 'E', 'F', 'G', 'H', 'I', 'J', 'K', 'L', 'M',
   'N', 'O', 'P', 'Q', 'R', 'S', 'T', 'U', 'V', 'W', 'X', 'Y', 'Z',
   'a', 'b', 'c', 'd', 'e', 'f', 'g', 'h', 'i', 'j', 'k', 'l', 'm',
   'n', 'o', 'p', 'q', 'r', 's', 't', 'u', 'v', 'w', 'x', 'y', 'z',
   '0', '1', '2', '3', '4', '5', '6', '7', '8', '9', '+', '/']

/-- Character encoding a six-bit group. -/
def b64Char (i : Nat) : Char := b64Table.getD i 'A'

/-- Index of a base64 character in the alphabet (64 marks an invalid
character; never reached on encoder output). -/
def b64Index (c : Char) : Nat := ((b64Table.indexOf? c).getD 64)

/-- Encode a byte list into base64 characters, three bytes at a time, with
`=` padding for a trailing group of one or two bytes. -/
def b64encodeChunks : List Nat → List Char
  | [] => []
  | [a] => [b64Char (a / 4), b64Char (a % 4 * 16), '=', '=']
  | [a, b] => [b64Char (a / 4), b64Char (a % 4 * 16 + b / 16), b64Char (b % 16 * 4), '=']
  | a :: b :: c :: rest =>
      b64Char (a / 4) :: b64Char (a % 4 * 16 + b / 16) ::
      b64Char (b % 16 * 4 + c / 64) :: b64Char (c % 64) :: b64encodeChunks rest

/-- Decode base64 characters four at a time, honouring `=` padding. -/
def b64decodeChunks : List Char → List Nat
  | c1 :: c2 :: c3 :: c4 :: rest =>
      let i1 := b64Index c1
      let i2 := b64Index c2
      if c3 = '=' then [i1 * 4 + i2 / 16]
      else
        let i3 := b64Index c3
        if c4 = '=' then [i1 * 4 + i2 / 16, i2 % 16 * 16 + i3 / 4]
        else
          (i1 * 4 + i2 / 16) :: (i2 % 16 * 16 + i3 / 4) ::
          (i3 % 4 * 64 + b64Index c4) :: b64decodeChunks rest
  | _ => []

/-- `base64.b64encode(bytes).decode("ascii")`: byte list to base64 string. -/
def b64encode (bs : List Nat) : String := String.mk (b64encodeChunks bs)

/-- `base64.b64decode(data)`: base64 string back to the byte list. -/
def b64decode (s : String) : List Nat := b64decodeChunks s.data

/-!
## ADK events and client frames

Model of the event objects consumed by `agent_to_client_messaging` in
`app/main.py`. `functionResponses` and `functionCalls` are the lists returned
by `event.get_function_responses()` / `event.get_function_calls()`; a
function-response's `response` field holds the tool-result value after the
`isinstance(result_data, str)` / `json.loads` normalisation of lines 131-132.
A client frame is the JSON object passed to `websocket.send_text`, modelled
as its ordered field list.
-/

/-- A client frame: the JSON object sent over the websocket, in field order. -/
abbrev Frame := List (String × JValue)

/-- `types.Blob`-style inline data of a content part: optional mime type and
optional raw bytes. -/
structure InlineData where
  mime_type : Option String
  data : Option (List Nat)

/-- A `types.Part` as inspected by the outbound multiplexer: optional text
and optional inline binary data. -/
structure Part where
  text : Option String
  inline_data : Option InlineData

/-- `event.content`: a role tag and the list of parts. -/
structure EventContent where
  role : Option String
  parts : List Part

/-- A function call reported by `event.get_function_calls()`. -/
structure FunctionCall where
  name : String
  args : JValue

/-- A function response reported by `event.get_function_responses()`; its
`response` is the parsed tool-result value. -/
structure FunctionResponse where
  name : String
  response : JValue

/-- An ADK live event as observed by `agent_to_client_messaging`. -/
structure Event where
  turn_complete : Option Bool
  interrupted : Option Bool
  functionResponses : List FunctionResponse
  functionCalls : List FunctionCall
  content : Option EventContent

/-- JSON serialisation of an optional boolean field (`None` → `null`). -/
def jOfOptBool : Option Bool → JValue
  | none => .jnull
  | some b => .jbool b

/-- The turn-status frame of `app/main.py` lines 118-121:
`{"turn_complete": ..., "interrupted": ...}`. -/
def statusFrame (tc intr : Option Bool) : Frame :=
  [("turn_complete", jOfOptBool tc), ("interrupted", jOfOptBool intr)]

/-- The generic artifact check of `app/main.py` lines 135-141: the parsed
tool result is a dict whose `artifact_saved` is truthy and not the string
`"No"` and whose `session_id` and `app_name` are truthy. -/
def isArtifactResponse (d : JValue) : Bool :=
  isDict d &&
  truthyJ (dictGet d "artifact_saved") &&
  !(pyEqStr (dictGet d "artifact_saved") "No") &&
  truthyJ (dictGet d "session_id") &&
  truthyJ (dictGet d "app_name")

/-- The retrieval URL of `app/main.py` line 151:
`f"/artifacts/{app_name}/{artifact_session_id}/{artifact_filename}"`, the
interpolated values rendered by Python `str()`. -/
def artifactUrl (app_name session_id filename : JValue) : String :=
  "/artifacts/" ++ pyStr app_name ++ "/" ++ pyStr session_id ++ "/" ++ pyStr filename

/-- The artifact-reference frame of `app/main.py` lines 154-159; mime type,
role and caption are literal constants in the source. -/
def artifactFrame (d : JValue) : Frame :=
  [("role", .jstr "model"),
   ("mime_type", .jstr "image/png"),
   ("data", .jstr (artifactUrl (dictGet d "app_name") (dictGet d "session_id")
      (dictGet d "artifact_saved"))),
   ("caption", .jstr "Here is the content you requested:")]

/-- Frames produced for one function response (`app/main.py` lines 128-161):
one artifact frame when the generic artifact check passes, nothing
otherwise. -/
def responseFrames (d : JValue) : List Frame :=
  if isArtifactResponse d then [artifactFrame d] else []

/-- The tool-call notice frame of `app/main.py` lines 172-176. -/
def toolCallFrame (c : FunctionCall) : Frame :=
  [("mime_type", .jstr "text/plain"),
   ("data", .jstr ("Tool Call: " ++ c.name ++ ", Args: " ++ pyStr c.args)),
   ("role", .jstr "system")]

/-- The outbound audio frame of `app/main.py` lines 220-224: PCM bytes are
base64-encoded into the `data` field. -/
def audioFrame (bs : List Nat) : Frame :=
  [("mime_type", .jstr "audio/pcm"),
   ("data", .jstr (b64encode bs)),
   ("role", .jstr "model")]

/-- Frames produced for one content part (`app/main.py` lines 185-237): a
text frame for non-empty text (tagged `user_transcription` when the event
content role is `"user"`, `model` when it is `"model"` or absent, nothing for
any other role), followed by an audio frame for non-empty inline PCM data. -/
def partFrames (role : Option String) (p : Part) : List Frame :=
  let textFrames : List Frame :=
    match p.text with
    | some t =>
      if t = "" then []
      else if role = some "user" then
        [[("mime_type", .jstr "text/plain"), ("data", .jstr t),
          ("role", .jstr "user_transcription")]]
      else if role = some "model" ∨ role = none then
        [[("mime_type", .jstr "text/plain"), ("data", .jstr t),
          ("role", .jstr "model")]]
      else []
    | none => []
  let audioFrames : List Frame :=
    match p.inline_data with
    | some b =>
      match b.mime_type with
      | some mt =>
        if mt = "" then []
        else if mt.startsWith "audio/pcm" then
          match b.data with
          | some bs => if bs.isEmpty then [] else [audioFrame bs]
          | none => []
        else []
      | none => []
    | none => []
  textFrames ++ audioFrames

/-- Frames the outbound multiplexer sends for one event (the loop body of
`agent_to_client_messaging`, `app/main.py` lines 112-237): a lone status
frame for a turn-complete/interrupted event, otherwise artifact frames from
function responses, then tool-call notices, then content-part frames. -/
def eventFrames (e : Event) : List Frame :=
  if truthyOptBool e.turn_complete || truthyOptBool e.interrupted then
    [statusFrame e.turn_complete e.interrupted]
  else
    (e.functionResponses.map (fun r => responseFrames r.response)).flatten ++
    e.functionCalls.map toolCallFrame ++
    (match e.content with
     | some c =>
       if c.parts.isEmpty then []
       else (c.parts.map (partFrames c.role)).flatten
     | none => [])

/-!
## Inbound pump

One iteration of the receive loop of `client_to_agent_messaging`
(`app/main.py` lines 259-291) on a well-formed inbound frame (`mime_type` and
`data` keys present; missing keys or malformed payloads raise and take the
generic exception branch, which no modelled claim exercises).
-/

/-- A well-formed inbound client frame: `mime_type`, `data`, optional
`role`. -/
structure InboundMessage where
  mime_type : String
  data : String
  role : Option String

/-- An effect of one inbound-pump iteration: forward content or a realtime
blob into the live request queue, or send a frame back to the client. -/
inductive PumpEffect where
  | sendContent : String → String → PumpEffect
  | sendRealtime : List Nat → String → PumpEffect
  | sendFrame : Frame → PumpEffect

/-- Whether an effect forwards into the agent's input queue. -/
def forwardsToQueue : PumpEffect → Bool
  | .sendContent _ _ => true
  | .sendRealtime _ _ => true
  | .sendFrame _ => false

/-- The unsupported-mime-type error frame of `app/main.py` line 277. -/
def unsupportedMimeFrame (mt : String) : Frame :=
  [("error", .jstr ("Mime type not supported: " ++ mt)), ("role", .jstr "system")]

/-- One iteration of the inbound pump on a well-formed frame: the effects
performed and whether the receive loop continues (`true` everywhere here —
only the exception branches `break`). -/
def clientToAgentStep (m : InboundMessage) : List PumpEffect × Bool :=
  if m.mime_type = "text/plain" then
    ([.sendContent (m.role.getD "user") m.data], true)
  else if m.mime_type = "audio/pcm" then
    ([.sendRealtime (b64decode m.data) m.mime_type], true)
  else
    ([.sendFrame (unsupportedMimeFrame m.mime_type)], true)

/-!
## Session store, artifact store and the pipeline wrappers

`InMemorySessionService` keys sessions by `(app_name, user_id, session_id)`;
`InMemoryArtifactService` keys artifacts by
`(app_name, user_id, session_id, filename)`. Both are modelled as
association lists where the most recent write is at the head. The ADK
`Runner` is opaque model-backed code; its effect on the one session it is
given is an arbitrary state transformer `run`, and its artifact effect is an
arbitrary list of `save_artifact` calls (`tool_context.save_artifact` always
writes under the running pipeline's own `(app, user, session)` scope).
`uuid.uuid4()` is modelled as a draw from a fresh-identifier supply.
-/

/-- Session key: `(app_name, user_id, session_id)`. -/
abbrev SessionKey := String × String × String

/-- Session state: the mutable key-value map of one session. -/
abbrev SessionState := List (String × JValue)

/-- The in-memory session service's storage. -/
abbrev SessionStore := List (SessionKey × SessionState)

/-- Artifact key: `(app_name, user_id, session_id, filename)`. -/
abbrev ArtifactKey := String × String × String × String

/-- A stored artifact: a `types.Part` whose `inline_data` carries the bytes
and mime type. -/
abbrev ArtifactStore := List (ArtifactKey × Part)

/-- `session_service.create_session(...)`: registers a session under its key
with the given initial state. -/
def createSession (st : SessionStore) (app user sid : String)
    (init : SessionState) : SessionStore :=
  ((app, user, sid), init) :: st

/-- `session_service.get_session(...)`. -/
def getSession (st : SessionStore) (app user sid : String) : Option SessionState :=
  assocLookup st (app, user, sid)

/-- Apply a state transformer to the session stored under one key (the
`Runner`'s mutation of the session it was given). -/
def updateSession (st : SessionStore) (k : SessionKey)
    (f : SessionState → SessionState) : SessionStore :=
  st.map (fun p => if p.1 = k then (p.1, f p.2) else p)

/-- `session.state.get(key)`: `None` when absent. -/
def stateGet (s : SessionState) (k : String) : JValue :=
  (assocLookup s k).getD .jnull

/-- Python `x or sentinel` on a state value: the value when truthy, else the
sentinel string. -/
def pyOr (v : JValue) (sentinel : String) : JValue :=
  if truthyJ v then v else .jstr sentinel

/-- `artifact_service.save_artifact(...)`: newest version first. -/
def saveArtifact (st : ArtifactStore) (app user sid filename : String)
    (p : Part) : ArtifactStore :=
  ((app, user, sid, filename), p) :: st

/-- `artifact_service.load_artifact(...)`: latest version under the exact
key, or nothing. -/
def loadArtifact (st : ArtifactStore) (app user sid filename : String) : Option Part :=
  assocLookup st (app, user, sid, filename)

/-- Apply a pipeline run's `save_artifact` calls, all scoped to the running
pipeline's `(app, user, session)`. -/
def applySaves (st : ArtifactStore) (app user sid : String)
    (saves : List (String × Part)) : ArtifactStore :=
  saves.foldl (fun acc fp => saveArtifact acc app user sid fp.1 fp.2) st

/-- Modelled from the spec: `uuid.uuid4()` generates a fresh session
identifier; the random draw is modelled as a supply of pairwise-distinct
identifiers indexed by how many draws happened before. -/
def uuidOf (n : Nat) : String := String.mk (List.replicate (n + 1) 'u')

/-- Constants of `app/services/bq_agent/agent.py`. -/
def sqlAppName : String := "sql_pipeline_app"

/-- The fixed synthetic user id shared by the specialist pipelines
(`USER_ID = "dev_user_01"` in each agent module). -/
def devUserId : String := "dev_user_01"

/-- Constants of `app/services/visualization_agent/agent.py`. -/
def visAppName : String := "visualization_app"

/-- Constants of `app/services/poster_agent/agent.py`. -/
def posterAppName : String := "poster_app"

/-- Result dict of `execute_sql_pipeline` (success path), field per field. -/
structure SqlResult where
  user_query : JValue
  understanding : JValue
  generated_sql : JValue
  reviewed_sql : JValue
  execution_result : JValue

/-- `execute_sql_pipeline` of `app/services/bq_agent/agent.py` lines 206-244,
on its non-exception path with `GOOGLE_API_KEY` present: create a session
under the freshly drawn id, run the pipeline (the opaque `run`), read the
stage output keys back from final session state, defaulting each falsy or
missing value to its sentinel. `none` models the exception branch returning
`{"error": ...}`. -/
def execute_sql_pipeline (store : SessionStore) (sid : String)
    (run : SessionState → SessionState) (user_query : String) :
    SessionStore × Option SqlResult :=
  let store1 := createSession store sqlAppName devUserId sid []
  let store2 := updateSession store1 (sqlAppName, devUserId, sid) run
  match getSession store2 sqlAppName devUserId sid with
  | none => (store2, none)
  | some s =>
    (store2, some {
      user_query := .jstr user_query,
      understanding := pyOr (stateGet s "query_understanding_output") "Not generated.",
      generated_sql := pyOr (stateGet s "query_generation_output") "Not generated.",
      reviewed_sql := pyOr (stateGet s "query_review_rewrite_output") "Not generated.",
      execution_result := pyOr (stateGet s "query_execution_output") "Not executed." })

/-- Result dict of `execute_visualization_pipeline` (success path). -/
structure VisResult where
  session_id : String
  chart_type_info : JValue
  generated_plotly_code : JValue
  execution_summary : JValue
  artifact_saved : String
  artifact_size_bytes : Nat

/-- `execute_visualization_pipeline` of
`app/services/visualization_agent/agent.py` lines 186-237, on its
non-exception path with `GOOGLE_API_KEY` present: create a session seeded
with the SQL rows and the query, run the pipeline (state effect `run`,
artifact effect `saves`), read the stage outputs back with sentinels, then
verify the artifact by loading `plot.png` from the artifact store; the result
reports `artifact_saved`/`artifact_size_bytes` from that load alone. `none`
models the exception branch (including `len(final_artifact.inline_data.data)`
raising when a loaded artifact lacks inline bytes). -/
def execute_visualization_pipeline (sstore : SessionStore) (astore : ArtifactStore)
    (sid : String) (run : SessionState → SessionState)
    (saves : List (String × Part)) (user_query : String) (query_data : JValue) :
    SessionStore × ArtifactStore × Option VisResult :=
  let init : SessionState :=
    [("query_execution_output", query_data), ("user_query", .jstr user_query)]
  let sstore1 := createSession sstore visAppName devUserId sid init
  let sstore2 := updateSession sstore1 (visAppName, devUserId, sid) run
  let astore2 := applySaves astore visAppName devUserId sid saves
  match getSession sstore2 visAppName devUserId sid with
  | none => (sstore2, astore2, none)
  | some s =>
    match loadArtifact astore2 visAppName devUserId sid "plot.png" with
    | some p =>
      match p.inline_data with
      | some b =>
        match b.data with
        | some bs =>
          (sstore2, astore2, some {
            session_id := sid,
            chart_type_info := pyOr (stateGet s "chart_type_output") "Not generated.",
            generated_plotly_code := pyOr (stateGet s "plotly_code_output") "Not generated.",
            execution_summary := pyOr (stateGet s "execution_summary") "Not executed.",
            artifact_saved := "plot.png",
            artifact_size_bytes := bs.length })
        | none => (sstore2, astore2, none)
      | none => (sstore2, astore2, none)
    | none =>
      (sstore2, astore2, some {
        session_id := sid,
        chart_type_info := pyOr (stateGet s "chart_type_output") "Not generated.",
        generated_plotly_code := pyOr (stateGet s "plotly_code_output") "Not generated.",
        execution_summary := pyOr (stateGet s "execution_summary") "Not executed.",
        artifact_saved := "No",
        artifact_size_bytes := 0 })

/-- Result dict of `call_poster_agent` (success path). -/
structure PosterResult where
  session_id : String
  app_name : String
  artifact_saved : String
  artifact_size_bytes : Nat

/-- `call_poster_agent` of `app/services/poster_agent/agent.py` lines 50-89,
non-exception path: create an empty-state session under the fresh id, run the
agent, then verify `generated_image.png` by loading it from the shared
artifact store; `artifact_saved`/`artifact_size_bytes` come from that load
alone. -/
def call_poster_agent (sstore : SessionStore) (astore : ArtifactStore)
    (sid : String) (run : SessionState → SessionState)
    (saves : List (String × Part)) :
    SessionStore × ArtifactStore × Option PosterResult :=
  let sstore1 := createSession sstore posterAppName devUserId sid []
  let sstore2 := updateSession sstore1 (posterAppName, devUserId, sid) run
  let astore2 := applySaves astore posterAppName devUserId sid saves
  match loadArtifact astore2 posterAppName devUserId sid "generated_image.png" with
  | some p =>
    match p.inline_data with
    | some b =>
      match b.data with
      | some bs =>
        (sstore2, astore2, some {
          session_id := sid,
          app_name := posterAppName,
          artifact_saved := "generated_image.png",
          artifact_size_bytes := bs.length })
      | none => (sstore2, astore2, none)
    | none => (sstore2, astore2, none)
  | none =>
    (sstore2, astore2, some {
      session_id := sid,
      app_name := posterAppName,
      artifact_saved := "No",
      artifact_size_bytes := 0 })

/-!
## Artifact retrieval endpoint

`get_artifact` of `app/main.py` lines 340-369 with the static
`USER_ID_MAP` of lines 335-338. The artifact service load is passed in as a
function that may fail (`Except.error` models an exception escaping
`load_artifact`, caught by the handler's `except` branch).
-/

/-- `USER_ID_MAP` of `app/main.py`: each artifact-producing app resolves to
its pipeline's fixed synthetic user id. -/
def USER_ID_MAP : List (String × String) :=
  [("visualization_app", devUserId), ("poster_app", devUserId)]

/-- Body of an HTTP response: a text body or a bytes body (`None` content
yields an empty body). -/
inductive RespContent where
  | textBody : String → RespContent
  | bytesBody : Option (List Nat) → RespContent

/-- An HTTP response as built by the endpoint. -/
structure HttpResponse where
  status_code : Nat
  content : RespContent
  media_type : Option String

/-- `get_artifact(app_name, session_id, filename)`: resolve the app to its
fixed user id via `USER_ID_MAP` (404 when unmapped or falsy), load the
artifact (500 when the load raises), and serve the stored bytes under the
stored mime type when the artifact and its inline data are truthy, else
404. -/
def get_artifact (load : String → String → String → String → Except Unit (Option Part))
    (app_name session_id filename : String) : HttpResponse :=
  match assocLookup USER_ID_MAP app_name with
  | none =>
    { status_code := 404, content := .textBody "Artifact app not found", media_type := none }
  | some user_id =>
    if user_id = "" then
      { status_code := 404, content := .textBody "Artifact app not found", media_type := none }
    else
      match load app_name user_id session_id filename with
      | .error _ =>
        { status_code := 500, content := .textBody "Error retrieving artifact",
          media_type := none }
      | .ok artifact =>
        match artifact with
        | some p =>
          match p.inline_data with
          | some b =>
            { status_code := 200, content := .bytesBody b.data, media_type := b.mime_type }
          | none =>
            { status_code := 404, content := .textBody "Artifact not found",
              media_type := none }
        | none =>
          { status_code := 404, content := .textBody "Artifact not found",
            media_type := none }

/-!
## Helper lemmas
-/

theorem assocLookup_cons_self {α β : Type} [DecidableEq α] (k : α) (b : β)
    (l : List (α × β)) : assocLookup ((k, b) :: l) k = some b := by
  simp [assocLookup]

theorem assocLookup_cons_ne {α β : Type} [DecidableEq α] {a k : α} (h : a ≠ k)
    (b : β) (l : List (α × β)) : assocLookup ((a, b) :: l) k = assocLookup l k := by
  simp [assocLookup, h]

theorem assocLookup_update_self {α β : Type} [DecidableEq α]
    (l : List (α × β)) (k : α) (f : β → β) :
    assocLookup (l.map (fun p => if p.1 = k then (p.1, f p.2) else p)) k
      = (assocLookup l k).map f := by
  induction l with
  | nil => rfl
  | cons hd tl ih =>
    obtain ⟨a, b⟩ := hd
    rw [List.map_cons]
    by_cases hak : a = k
    · subst hak
      rw [if_pos (show (a, b).1 = a from rfl),
          assocLookup_cons_self, assocLookup_cons_self]
      rfl
    · rw [if_neg (show ¬(a, b).1 = k from hak),
          assocLookup_cons_ne hak, assocLookup_cons_ne hak, ih]

theorem assocLookup_update_ne {α β : Type} [DecidableEq α]
    (l : List (α × β)) {k k' : α} (h : k' ≠ k) (f : β → β) :
    assocLookup (l.map (fun p => if p.1 = k then (p.1, f p.2) else p)) k'
      = assocLookup l k' := by
  induction l with
  | nil => rfl
  | cons hd tl ih =>
    obtain ⟨a, b⟩ := hd
    rw [List.map_cons]
    by_cases hak : a = k
    · subst hak
      have hk' : a ≠ k' := fun hh => h hh.symm
      rw [if_pos (show (a, b).1 = a from rfl),
          assocLookup_cons_ne hk', assocLookup_cons_ne hk', ih]
    · by_cases hak' : a = k'
      · subst hak'
        rw [if_neg (show ¬(a, b).1 = k from hak),
            assocLookup_cons_self, assocLookup_cons_self]
      · rw [if_neg (show ¬(a, b).1 = k from hak),
            assocLookup_cons_ne hak', assocLookup_cons_ne hak', ih]

theorem getSession_run (st : SessionStore) (app user sid : String)
    (init : SessionState) (run : SessionState → SessionState) :
    getSession (updateSession (createSession st app user sid init)
      (app, user, sid) run) app user sid = some (run init) := by
  show assocLookup (List.map _ (((app, user, sid), init) :: st)) (app, user, sid) = _
  rw [assocLookup_update_self]
  rw [assocLookup_cons_self]
  rfl

theorem getSession_run_ne (st : SessionStore) {app user sid app' user' sid' : String}
    (h : (app', user', sid') ≠ ((app, user, sid) : SessionKey))
    (init : SessionState) (run : SessionState → SessionState) :
    getSession (updateSession (createSession st app user sid init)
      (app, user, sid) run) app' user' sid' = getSession st app' user' sid' := by
  show assocLookup (List.map _ (((app, user, sid), init) :: st)) (app', user', sid') = _
  rw [assocLookup_update_ne _ h]
  exact assocLookup_cons_ne (fun hh => h hh.symm) _ _

theorem loadArtifact_applySaves_other_session (st : ArtifactStore)
    (app user : String) {sid sid' : String} (h : sid' ≠ sid)
    (saves : List (String × Part)) (app' user' fname : String) :
    loadArtifact (applySaves st app user sid saves) app' user' sid' fname
      = loadArtifact st app' user' sid' fname := by
  induction saves generalizing st with
  | nil => rfl
  | cons s rest ih =>
    show loadArtifact (applySaves (saveArtifact st app user sid s.1 s.2) app user sid rest)
      app' user' sid' fname = _
    rw [ih]
    exact assocLookup_cons_ne (fun hh => h (congrArg (fun k => k.2.2.1) hh).symm) _ _

theorem loadArtifact_applySaves_congr {st1 st2 : ArtifactStore}
    (app user sid : String) (saves : List (String × Part))
    (app' user' sid' fname : String)
    (h : loadArtifact st1 app' user' sid' fname = loadArtifact st2 app' user' sid' fname) :
    loadArtifact (applySaves st1 app user sid saves) app' user' sid' fname
      = loadArtifact (applySaves st2 app user sid saves) app' user' sid' fname := by
  induction saves generalizing st1 st2 with
  | nil => exact h
  | cons s rest ih =>
    refine ih ?_
    show assocLookup (_ :: st1) _ = assocLookup (_ :: st2) _
    by_cases hk : ((app, user, sid, s.1) : ArtifactKey) = (app', user', sid', fname)
    · rw [hk, assocLookup_cons_self, assocLookup_cons_self]
    · rw [assocLookup_cons_ne hk, assocLookup_cons_ne hk]
      exact h

theorem uuidOf_injective : Function.Injective uuidOf := by
  intro a b h
  have h2 : List.replicate (a + 1) 'u' = List.replicate (b + 1) 'u' :=
    congrArg String.data h
  have h3 := congrArg List.length h2
  simp at h3
  omega

theorem pyOr_spec (v : JValue) (s : String) :
    (pyOr v s = v ∨ pyOr v s = .jstr s) ∧ pyOr v s ≠ .jnull := by
  unfold pyOr
  cases ht : truthyJ v with
  | true =>
    rw [if_pos (show true = true from rfl)]
    refine ⟨Or.inl rfl, fun hv => ?_⟩
    rw [hv] at ht
    exact absurd ht (by simp [truthyJ])
  | false =>
    rw [if_neg (show ¬false = true by decide)]
    exact ⟨Or.inr rfl, fun hv => JValue.noConfusion hv⟩

theorem truthy_dictGet_isDict {d : JValue} {k : String}
    (h : truthyJ (dictGet d k) = true) : isDict d = true := by
  cases d <;> first
    | rfl
    | simp [dictGet, truthyJ] at h

theorem b64Index_b64Char (i : Nat) (h : i < 64) : b64Index (b64Char i) = i := by
  have hall : (List.range 64).all (fun j => b64Index (b64Char j) == j) = true := by decide
  have := List.all_eq_true.mp hall i (List.mem_range.mpr h)
  simpa using this

theorem b64Char_ne_pad (i : Nat) (h : i < 64) : b64Char i ≠ '=' := by
  have hall : (List.range 64).all (fun j => !(b64Char j == '=')) = true := by decide
  have := List.all_eq_true.mp hall i (List.mem_range.mpr h)
  simpa using this

theorem b64_roundtrip_chunks : ∀ bs : List Nat, (∀ x ∈ bs, x < 256) →
    b64decodeChunks (b64encodeChunks bs) = bs := by
  intro bs
  induction bs using b64encodeChunks.induct with
  | case1 => intro _; rfl
  | case2 a =>
    intro h
    have ha : a < 256 := h a (by simp)
    simp only [b64encodeChunks, b64decodeChunks]
    rw [if_pos trivial, b64Index_b64Char (a / 4) (by omega),
        b64Index_b64Char (a % 4 * 16) (by omega)]
    simp only [List.cons.injEq, and_true]
    omega
  | case3 a b =>
    intro h
    have ha : a < 256 := h a (by simp)
    have hb : b < 256 := h b (by simp)
    simp only [b64encodeChunks, b64decodeChunks]
    rw [if_neg (b64Char_ne_pad (b % 16 * 4) (by omega)), if_pos trivial,
        b64Index_b64Char (a / 4) (by omega),
        b64Index_b64Char (a % 4 * 16 + b / 16) (by omega),
        b64Index_b64Char (b % 16 * 4) (by omega)]
    simp only [List.cons.injEq, and_true]
    exact ⟨by omega, by omega⟩
  | case4 a b c rest ih =>
    intro h
    have ha : a < 256 := h a (by simp)
    have hb : b < 256 := h b (by simp)
    have hc : c < 256 := h c (by simp)
    simp only [b64encodeChunks, b64decodeChunks]
    rw [if_neg (b64Char_ne_pad (b % 16 * 4 + c / 64) (by omega)),
        if_neg (b64Char_ne_pad (c % 64) (by omega)),
        b64Index_b64Char (a / 4) (by omega),
        b64Index_b64Char (a % 4 * 16 + b / 16) (by omega),
        b64Index_b64Char (b % 16 * 4 + c / 64) (by omega),
        b64Index_b64Char (c % 64) (by omega),
        ih (fun x hx => h x (by simp [hx]))]
    simp only [List.cons.injEq, and_true]
    exact ⟨by omega, by omega, by omega⟩

theorem execute_sql_pipeline_eq (store : SessionStore) (sid : String)
    (run : SessionState → SessionState) (q : String) :
    execute_sql_pipeline store sid run q =
      (updateSession (createSession store sqlAppName devUserId sid [])
        (sqlAppName, devUserId, sid) run,
       some {
         user_query := .jstr q,
         understanding := pyOr (stateGet (run []) "query_understanding_output") "Not generated.",
         generated_sql := pyOr (stateGet (run []) "query_generation_output") "Not generated.",
         reviewed_sql := pyOr (stateGet (run []) "query_review_rewrite_output") "Not generated.",
         execution_result := pyOr (stateGet (run []) "query_execution_output") "Not executed." }) := by
  simp only [execute_sql_pipeline]
  rw [getSession_run]

theorem execute_visualization_pipeline_fst (sstore : SessionStore)
    (astore : ArtifactStore) (sid : String) (run : SessionState → SessionState)
    (saves : List (String × Part)) (uq : String) (qd : JValue) :
    (execute_visualization_pipeline sstore astore sid run saves uq qd).1 =
      updateSession (createSession sstore visAppName devUserId sid
        [("query_execution_output", qd), ("user_query", .jstr uq)])
        (visAppName, devUserId, sid) run := by
  simp only [execute_visualization_pipeline]
  rw [getSession_run]
  repeat' split
  all_goals rfl

theorem execute_visualization_pipeline_snd (sstore : SessionStore)
    (astore : ArtifactStore) (sid : String) (run : SessionState → SessionState)
    (saves : List (String × Part)) (uq : String) (qd : JValue) :
    (execute_visualization_pipeline sstore astore sid run saves uq qd).2.1 =
      applySaves astore visAppName devUserId sid saves := by
  simp only [execute_visualization_pipeline]
  rw [getSession_run]
  repeat' split
  all_goals rfl

/-!
## Claim theorems
-/

/-- C5: an inbound client frame whose mime type is neither `text/plain` nor
`audio/pcm` makes the inbound pump send back exactly one error frame with
role `system`, forward nothing to the agent's input queue, and continue the
receive loop rather than terminating the connection. -/
theorem c5_unsupported_mime (m : InboundMessage)
    (h1 : m.mime_type ≠ "text/plain") (h2 : m.mime_type ≠ "audio/pcm") :
    clientToAgentStep m = ([.sendFrame (unsupportedMimeFrame m.mime_type)], true) ∧
    (∀ eff ∈ (clientToAgentStep m).1, forwardsToQueue eff = false) ∧
    assocLookup (unsupportedMimeFrame m.mime_type) "role" = some (.jstr "system") := by
  have hstep : clientToAgentStep m = ([.sendFrame (unsupportedMimeFrame m.mime_type)], true) := by
    unfold clientToAgentStep
    rw [if_neg h1, if_neg h2]
  refine ⟨hstep, ?_, rfl⟩
  intro eff heff
  rw [hstep] at heff
  have : eff = .sendFrame (unsupportedMimeFrame m.mime_type) := by simpa using heff
  rw [this]
  rfl

/-- Witness for C5 at a concrete `video/mp4` frame. -/
theorem c5_unsupported_mime_witness :
    clientToAgentStep { mime_type := "video/mp4", data := "zzz", role := none }
      = ([.sendFrame (unsupportedMimeFrame "video/mp4")], true) ∧
    (∀ eff ∈ (clientToAgentStep
        { mime_type := "video/mp4", data := "zzz", role := none }).1,
      forwardsToQueue eff = false) ∧
    assocLookup (unsupportedMimeFrame "video/mp4") "role" = some (.jstr "system") :=
  c5_unsupported_mime { mime_type := "video/mp4", data := "zzz", role := none }
    (by decide) (by decide)

/-- C6: an event flagged turn-complete or interrupted makes the outbound
multiplexer send exactly one status frame holding only the
`turn_complete`/`interrupted` fields, and nothing else is emitted for that
event. -/
theorem c6_turn_status_frame (e : Event)
    (h : truthyOptBool e.turn_complete = true ∨ truthyOptBool e.interrupted = true) :
    eventFrames e = [[("turn_complete", jOfOptBool e.turn_complete),
                      ("interrupted", jOfOptBool e.interrupted)]] := by
  have hb : (truthyOptBool e.turn_complete || truthyOptBool e.interrupted) = true := by
    rcases h with h | h <;> simp [h]
  unfold eventFrames
  rw [if_pos hb]
  rfl

/-- Witness for C6 at a concrete turn-complete event that also carries a
function call: only the status frame is emitted. -/
theorem c6_turn_status_frame_witness :
    eventFrames
        { turn_complete := some true, interrupted := some false,
          functionResponses := [], functionCalls := [⟨"tool", .jnull⟩],
          content := none }
      = [[("turn_complete", .jbool true), ("interrupted", .jbool false)]] :=
  c6_turn_status_frame
    { turn_complete := some true, interrupted := some false,
      functionResponses := [], functionCalls := [⟨"tool", .jnull⟩],
      content := none }
    (Or.inl rfl)

/-- C7: a content part with non-empty text is sent as a `user_transcription`
frame when the event content role is `"user"`, and as a plain text frame
tagged `model` when the role is `"model"` or absent. -/
theorem c7_text_part_roles (role : Option String) (p : Part) (t : String)
    (htext : p.text = some t) (hne : t ≠ "") (haudio : p.inline_data = none) :
    (role = some "user" → partFrames role p =
      [[("mime_type", .jstr "text/plain"), ("data", .jstr t),
        ("role", .jstr "user_transcription")]]) ∧
    ((role = some "model" ∨ role = none) → partFrames role p =
      [[("mime_type", .jstr "text/plain"), ("data", .jstr t),
        ("role", .jstr "model")]]) := by
  constructor
  · intro hr
    subst hr
    simp only [partFrames, htext, haudio]
    rw [if_neg hne, if_pos trivial]
    rfl
  · intro hr
    have hneq : ¬role = some "user" := by
      rcases hr with h | h <;> simp [h]
    simp only [partFrames, htext, haudio]
    rw [if_neg hne, if_neg hneq, if_pos hr]
    rfl

/-- Witness for C7 at a concrete text part under both role tags. -/
theorem c7_text_part_roles_witness :
    partFrames (some "user") { text := some "hi", inline_data := none }
      = [[("mime_type", .jstr "text/plain"), ("data", .jstr "hi"),
          ("role", .jstr "user_transcription")]] ∧
    partFrames none { text := some "hi", inline_data := none }
      = [[("mime_type", .jstr "text/plain"), ("data", .jstr "hi"),
          ("role", .jstr "model")]] :=
  ⟨(c7_text_part_roles (some "user") { text := some "hi", inline_data := none } "hi"
      rfl (by decide) rfl).1 rfl,
   (c7_text_part_roles none { text := some "hi", inline_data := none } "hi"
      rfl (by decide) rfl).2 (Or.inr rfl)⟩

/-- C9: base64-decoding the `data` field produced by the outbound audio-frame
encoding reproduces the original PCM bytes exactly — the inbound decode is a
left inverse of the outbound encode. -/
theorem c9_base64_roundtrip (bs : List Nat) (h : ∀ x ∈ bs, x < 256) :
    b64decode (b64encode bs) = bs ∧
    assocLookup (audioFrame bs) "data" = some (.jstr (b64encode bs)) :=
  ⟨b64_roundtrip_chunks bs h, rfl⟩

/-- Witness for C9 at a concrete byte string exercising all padding shapes
is unnecessary for the audit, but the five-byte input here covers the
two-byte-tail case. -/
theorem c9_base64_roundtrip_witness :
    b64decode (b64encode [0, 1, 77, 255, 128]) = [0, 1, 77, 255, 128] ∧
    assocLookup (audioFrame [0, 1, 77, 255, 128]) "data"
      = some (.jstr (b64encode [0, 1, 77, 255, 128])) :=
  c9_base64_roundtrip [0, 1, 77, 255, 128] (by decide)

/-- C10: every artifact-reference frame the outbound multiplexer emits
declares the constant mime type `image/png`, role `model` and the fixed
caption, whatever the tool result holds — `responseFrames` never consults
the artifact store, so the declared type cannot come from the stored
artifact. -/
theorem c10_artifact_frame_constants (d : JValue) (f : Frame)
    (hf : f ∈ responseFrames d) :
    assocLookup f "mime_type" = some (.jstr "image/png") ∧
    assocLookup f "role" = some (.jstr "model") ∧
    assocLookup f "caption" = some (.jstr "Here is the content you requested:") := by
  unfold responseFrames at hf
  by_cases hart : isArtifactResponse d = true
  · rw [if_pos hart] at hf
    have hfa : f = artifactFrame d := by simpa using hf
    rw [hfa]
    exact ⟨rfl, rfl, rfl⟩
  · rw [if_neg hart] at hf
    exact absurd hf (by simp)

/-- Witness for C10 at a concrete artifact-bearing tool result. -/
theorem c10_artifact_frame_constants_witness :
    assocLookup (artifactFrame (.jobj [("artifact_saved", .jstr "plot.png"),
        ("session_id", .jstr "s"), ("app_name", .jstr "visualization_app")]))
      "mime_type" = some (.jstr "image/png") ∧
    assocLookup (artifactFrame (.jobj [("artifact_saved", .jstr "plot.png"),
        ("session_id", .jstr "s"), ("app_name", .jstr "visualization_app")]))
      "role" = some (.jstr "model") ∧
    assocLookup (artifactFrame (.jobj [("artifact_saved", .jstr "plot.png"),
        ("session_id", .jstr "s"), ("app_name", .jstr "visualization_app")]))
      "caption" = some (.jstr "Here is the content you requested:") :=
  c10_artifact_frame_constants
    (.jobj [("artifact_saved", .jstr "plot.png"),
            ("session_id", .jstr "s"), ("app_name", .jstr "visualization_app")])
    (artifactFrame (.jobj [("artifact_saved", .jstr "plot.png"),
            ("session_id", .jstr "s"), ("app_name", .jstr "visualization_app")]))
    (List.mem_singleton.mpr rfl)

/-- C1, counterexample: a tool-result dict that carries all three required
artifact keys with `artifact_saved` present and different from `"No"` — but
equal to the falsy empty string — makes the outbound multiplexer send no
frame at all, where the claim as stated demands exactly one URL frame. The
source guard (`app/main.py` line 137) tests Python truthiness, not key
presence. -/
theorem c1_artifact_presence_counterexample :
    dictGet (.jobj [("artifact_saved", .jstr ""), ("session_id", .jstr "s1"),
        ("app_name", .jstr "visualization_app")]) "artifact_saved" = .jstr "" ∧
    JValue.jstr "" ≠ JValue.jstr "No" ∧
    dictGet (.jobj [("artifact_saved", .jstr ""), ("session_id", .jstr "s1"),
        ("app_name", .jstr "visualization_app")]) "session_id" = .jstr "s1" ∧
    dictGet (.jobj [("artifact_saved", .jstr ""), ("session_id", .jstr "s1"),
        ("app_name", .jstr "visualization_app")]) "app_name"
      = .jstr "visualization_app" ∧
    eventFrames
        { turn_complete := none, interrupted := none,
          functionResponses := [⟨"execute_visualization_pipeline",
            .jobj [("artifact_saved", .jstr ""), ("session_id", .jstr "s1"),
                   ("app_name", .jstr "visualization_app")]⟩],
          functionCalls := [], content := none }
      = [] :=
  ⟨rfl, fun h => by simp at h, rfl, rfl, rfl⟩

/-- C1, amended: for a function-response event whose parsed tool result
carries the three artifact keys with Python-truthy values (`artifact_saved`
truthy and not the string `"No"`, `session_id` truthy, `app_name` truthy),
the outbound multiplexer sends exactly one frame, whose `data` field is the
deterministically constructed URL
`/artifacts/{app_name}/{session_id}/{artifact_saved}` — never the raw
artifact bytes. -/
theorem c1_artifact_url_frame (e : Event) (rname : String) (d : JValue)
    (htc : truthyOptBool e.turn_complete = false)
    (hput : truthyOptBool e.interrupted = false)
    (hresp : e.functionResponses = [⟨rname, d⟩])
    (hcalls : e.functionCalls = [])
    (hcontent : e.content = none)
    (ha : truthyJ (dictGet d "artifact_saved") = true)
    (hno : pyEqStr (dictGet d "artifact_saved") "No" = false)
    (hs : truthyJ (dictGet d "session_id") = true)
    (happ : truthyJ (dictGet d "app_name") = true) :
    eventFrames e = [artifactFrame d] ∧
    assocLookup (artifactFrame d) "data"
      = some (.jstr ("/artifacts/" ++ pyStr (dictGet d "app_name") ++ "/" ++
          pyStr (dictGet d "session_id") ++ "/" ++
          pyStr (dictGet d "artifact_saved"))) := by
  have hdict : isDict d = true := truthy_dictGet_isDict hs
  have hart : isArtifactResponse d = true := by
    unfold isArtifactResponse
    rw [hdict, ha, hno, hs, happ]
    rfl
  constructor
  · unfold eventFrames
    rw [if_neg (by rw [htc, hput]; simp)]
    rw [hresp, hcalls, hcontent]
    simp only [List.map_cons, List.map_nil, List.flatten_cons, List.flatten_nil,
               List.append_nil]
    unfold responseFrames
    rw [if_pos hart]
  · rfl

/-- Witness for the amended C1 at a concrete function-response event. -/
theorem c1_artifact_url_frame_witness :
    eventFrames
        { turn_complete := none, interrupted := none,
          functionResponses := [⟨"call_poster_agent",
            .jobj [("session_id", .jstr "sess-9"),
                   ("app_name", .jstr "poster_app"),
                   ("artifact_saved", .jstr "generated_image.png"),
                   ("artifact_size_bytes", .jnum 512)]⟩],
          functionCalls := [], content := none }
      = [artifactFrame (.jobj [("session_id", .jstr "sess-9"),
           ("app_name", .jstr "poster_app"),
           ("artifact_saved", .jstr "generated_image.png"),
           ("artifact_size_bytes", .jnum 512)])] ∧
    assocLookup (artifactFrame (.jobj [("session_id", .jstr "sess-9"),
        ("app_name", .jstr "poster_app"),
        ("artifact_saved", .jstr "generated_image.png"),
        ("artifact_size_bytes", .jnum 512)])) "data"
      = some (.jstr ("/artifacts/" ++ "poster_app" ++ "/" ++ "sess-9" ++ "/" ++
          "generated_image.png")) :=
  c1_artifact_url_frame
    { turn_complete := none, interrupted := none,
      functionResponses := [⟨"call_poster_agent",
        .jobj [("session_id", .jstr "sess-9"),
               ("app_name", .jstr "poster_app"),
               ("artifact_saved", .jstr "generated_image.png"),
               ("artifact_size_bytes", .jnum 512)]⟩],
      functionCalls := [], content := none }
    "call_poster_agent"
    (.jobj [("session_id", .jstr "sess-9"),
            ("app_name", .jstr "poster_app"),
            ("artifact_saved", .jstr "generated_image.png"),
            ("artifact_size_bytes", .jnum 512)])
    rfl rfl rfl rfl rfl rfl rfl rfl rfl

/-- C8: `GET /artifacts/{app_name}/{session_id}/{filename}` resolves the app
through the static `USER_ID_MAP`; an unmapped app or a missing artifact
yields 404, an exception during retrieval yields 500, and otherwise the
stored bytes are served under the stored mime type. -/
theorem c8_get_artifact_statuses
    (load : String → String → String → String → Except Unit (Option Part))
    (app sid fname : String) :
    (assocLookup USER_ID_MAP app = none →
      (get_artifact load app sid fname).status_code = 404) ∧
    (∀ uid, assocLookup USER_ID_MAP app = some uid → uid ≠ "" →
      ((load app uid sid fname = .error () →
         (get_artifact load app sid fname).status_code = 500) ∧
       (load app uid sid fname = .ok none →
         (get_artifact load app sid fname).status_code = 404) ∧
       (∀ p, load app uid sid fname = .ok (some p) → p.inline_data = none →
         (get_artifact load app sid fname).status_code = 404) ∧
       (∀ p b, load app uid sid fname = .ok (some p) → p.inline_data = some b →
         get_artifact load app sid fname =
           { status_code := 200, content := .bytesBody b.data,
             media_type := b.mime_type }))) := by
  constructor
  · intro hmap
    unfold get_artifact
    rw [hmap]
  · intro uid hmap huid
    refine ⟨?_, ?_, ?_, ?_⟩
    · intro hload
      unfold get_artifact
      simp [hmap, huid, hload]
    · intro hload
      unfold get_artifact
      simp [hmap, huid, hload]
    · intro p hload hinline
      unfold get_artifact
      simp [hmap, huid, hload, hinline]
    · intro p b hload hinline
      unfold get_artifact
      simp [hmap, huid, hload, hinline]

/-- Witness for C8: all four status branches at concrete inputs. -/
theorem c8_get_artifact_statuses_witness :
    (get_artifact (fun _ _ _ _ => .ok none) "unknown_app" "s" "f").status_code = 404 ∧
    (get_artifact (fun _ _ _ _ => .error ()) "poster_app" "s" "f").status_code = 500 ∧
    (get_artifact (fun _ _ _ _ => .ok none) "poster_app" "s" "f").status_code = 404 ∧
    get_artifact
        (fun _ _ _ _ => .ok (some ⟨none, some ⟨some "image/png", some [9, 9]⟩⟩))
        "visualization_app" "s" "plot.png"
      = { status_code := 200, content := .bytesBody (some [9, 9]),
          media_type := some "image/png" } :=
  ⟨(c8_get_artifact_statuses (fun _ _ _ _ => .ok none) "unknown_app" "s" "f").1 rfl,
   ((c8_get_artifact_statuses (fun _ _ _ _ => .error ()) "poster_app" "s" "f").2
     devUserId rfl (by decide)).1 rfl,
   (((c8_get_artifact_statuses (fun _ _ _ _ => .ok none) "poster_app" "s" "f").2
     devUserId rfl (by decide)).2).1 rfl,
   (((c8_get_artifact_statuses
        (fun _ _ _ _ => .ok (some ⟨none, some ⟨some "image/png", some [9, 9]⟩⟩))
        "visualization_app" "s" "plot.png").2
     devUserId rfl (by decide)).2).2.2
     ⟨none, some ⟨some "image/png", some [9, 9]⟩⟩
     ⟨some "image/png", some [9, 9]⟩
     rfl rfl⟩

/-- C3: on every terminated pipeline run the structured result dict carries
each stage field as either the stage's actual output read back from final
session state under its declared output key, or the literal sentinel
`"Not generated."` / `"Not executed."` — never `None` and never a missing
key (the result record carries every field by construction). The SQL
pipeline's success result always exists; the visualization conclusion holds
for every success result it returns. -/
theorem c3_result_sentinels (store : SessionStore) (sid : String)
    (run : SessionState → SessionState) (q : String)
    (sstore : SessionStore) (astore : ArtifactStore) (sidV : String)
    (runV : SessionState → SessionState) (saves : List (String × Part))
    (uq : String) (qd : JValue) :
    (∃ res, (execute_sql_pipeline store sid run q).2 = some res) ∧
    (∀ res, (execute_sql_pipeline store sid run q).2 = some res →
      ((res.understanding = stateGet (run []) "query_understanding_output" ∨
          res.understanding = .jstr "Not generated.") ∧ res.understanding ≠ .jnull) ∧
      ((res.generated_sql = stateGet (run []) "query_generation_output" ∨
          res.generated_sql = .jstr "Not generated.") ∧ res.generated_sql ≠ .jnull) ∧
      ((res.reviewed_sql = stateGet (run []) "query_review_rewrite_output" ∨
          res.reviewed_sql = .jstr "Not generated.") ∧ res.reviewed_sql ≠ .jnull) ∧
      ((res.execution_result = stateGet (run []) "query_execution_output" ∨
          res.execution_result = .jstr "Not executed.") ∧ res.execution_result ≠ .jnull)) ∧
    (∀ vres, (execute_visualization_pipeline sstore astore sidV runV saves uq qd).2.2
        = some vres →
      ((vres.chart_type_info = stateGet
            (runV [("query_execution_output", qd), ("user_query", .jstr uq)])
            "chart_type_output" ∨
          vres.chart_type_info = .jstr "Not generated.") ∧
        vres.chart_type_info ≠ .jnull) ∧
      ((vres.generated_plotly_code = stateGet
            (runV [("query_execution_output", qd), ("user_query", .jstr uq)])
            "plotly_code_output" ∨
          vres.generated_plotly_code = .jstr "Not generated.") ∧
        vres.generated_plotly_code ≠ .jnull) ∧
      ((vres.execution_summary = stateGet
            (runV [("query_execution_output", qd), ("user_query", .jstr uq)])
            "execution_summary" ∨
          vres.execution_summary = .jstr "Not executed.") ∧
        vres.execution_summary ≠ .jnull)) := by
  refine ⟨?_, ?_, ?_⟩
  · rw [execute_sql_pipeline_eq]
    exact ⟨_, rfl⟩
  · intro res h
    rw [execute_sql_pipeline_eq] at h
    obtain rfl := (Option.some.inj h).symm
    exact ⟨pyOr_spec _ _, pyOr_spec _ _, pyOr_spec _ _, pyOr_spec _ _⟩
  · intro vres h
    simp only [execute_visualization_pipeline, getSession_run] at h
    rcases hl : loadArtifact (applySaves astore visAppName devUserId sidV saves)
        visAppName devUserId sidV "plot.png" with _ | p
    · rw [hl] at h
      obtain rfl := (Option.some.inj h).symm
      exact ⟨pyOr_spec _ _, pyOr_spec _ _, pyOr_spec _ _⟩
    · obtain ⟨pt, pid⟩ := p
      rcases pid with _ | b
      · rw [hl] at h
        exact Option.noConfusion h
      · obtain ⟨bmt, bd⟩ := b
        rcases bd with _ | bs
        · rw [hl] at h
          exact Option.noConfusion h
        · rw [hl] at h
          obtain rfl := (Option.some.inj h).symm
          exact ⟨pyOr_spec _ _, pyOr_spec _ _, pyOr_spec _ _⟩

/-- Witness for C3 at concrete stores and a concrete stage-state
transformer: the second stage key is left unwritten and surfaces as the
sentinel. -/
theorem c3_result_sentinels_witness :
    (∃ res, (execute_sql_pipeline [] "sid-1"
        (fun s => ("query_understanding_output", JValue.jstr "use table users") :: s)
        "how many users?").2 = some res) ∧
    (∀ res, (execute_sql_pipeline [] "sid-1"
        (fun s => ("query_understanding_output", JValue.jstr "use table users") :: s)
        "how many users?").2 = some res →
      ((res.understanding = stateGet
          ((fun s => ("query_understanding_output", JValue.jstr "use table users") :: s) [])
          "query_understanding_output" ∨
          res.understanding = .jstr "Not generated.") ∧ res.understanding ≠ .jnull) ∧
      ((res.generated_sql = stateGet
          ((fun s => ("query_understanding_output", JValue.jstr "use table users") :: s) [])
          "query_generation_output" ∨
          res.generated_sql = .jstr "Not generated.") ∧ res.generated_sql ≠ .jnull) ∧
      ((res.reviewed_sql = stateGet
          ((fun s => ("query_understanding_output", JValue.jstr "use table users") :: s) [])
          "query_review_rewrite_output" ∨
          res.reviewed_sql = .jstr "Not generated.") ∧ res.reviewed_sql ≠ .jnull) ∧
      ((res.execution_result = stateGet
          ((fun s => ("query_understanding_output", JValue.jstr "use table users") :: s) [])
          "query_execution_output" ∨
          res.execution_result = .jstr "Not executed.") ∧ res.execution_result ≠ .jnull)) ∧
    (∀ vres, (execute_visualization_pipeline [] [] "sid-2" id [] "chart it"
        (.jarr [])).2.2 = some vres →
      ((vres.chart_type_info = stateGet
            (id [("query_execution_output", JValue.jarr []),
                 ("user_query", JValue.jstr "chart it")]) "chart_type_output" ∨
          vres.chart_type_info = .jstr "Not generated.") ∧
        vres.chart_type_info ≠ .jnull) ∧
      ((vres.generated_plotly_code = stateGet
            (id [("query_execution_output", JValue.jarr []),
                 ("user_query", JValue.jstr "chart it")]) "plotly_code_output" ∨
          vres.generated_plotly_code = .jstr "Not generated.") ∧
        vres.generated_plotly_code ≠ .jnull) ∧
      ((vres.execution_summary = stateGet
            (id [("query_execution_output", JValue.jarr []),
                 ("user_query", JValue.jstr "chart it")]) "execution_summary" ∨
          vres.execution_summary = .jstr "Not executed.") ∧
        vres.execution_summary ≠ .jnull)) :=
  c3_result_sentinels [] "sid-1"
    (fun s => ("query_understanding_output", JValue.jstr "use table users") :: s)
    "how many users?" [] [] "sid-2" id [] "chart it" (.jarr [])

/-- C4: an artifact-producing pipeline run reports `artifact_saved` as the
filename (with the byte length in `artifact_size_bytes`) exactly when the
artifact is loadable from the artifact store by the exact
`(app, user, session, filename)` tuple after the run; when the load returns
nothing, the result carries the sentinel `"No"` and size 0. The report is a
function of the load alone — the stage's text output (`execution_summary`,
produced by the arbitrary `runV`/`prun`) cannot influence it. Stated for the
visualization pipeline (`plot.png`) and the poster agent
(`generated_image.png`). -/
theorem c4_artifact_saved_iff_loadable
    (sstore : SessionStore) (astore : ArtifactStore) (sid : String)
    (runV : SessionState → SessionState) (saves : List (String × Part))
    (uq : String) (qd : JValue)
    (pstore : SessionStore) (pastore : ArtifactStore) (psid : String)
    (prun : SessionState → SessionState) (psaves : List (String × Part)) :
    (loadArtifact (applySaves astore visAppName devUserId sid saves)
        visAppName devUserId sid "plot.png" = none →
      ∃ r, (execute_visualization_pipeline sstore astore sid runV saves uq qd).2.2
          = some r ∧ r.artifact_saved = "No" ∧ r.artifact_size_bytes = 0) ∧
    (∀ p b bs, loadArtifact (applySaves astore visAppName devUserId sid saves)
        visAppName devUserId sid "plot.png" = some p →
      p.inline_data = some b → b.data = some bs →
      ∃ r, (execute_visualization_pipeline sstore astore sid runV saves uq qd).2.2
          = some r ∧ r.artifact_saved = "plot.png" ∧
          r.artifact_size_bytes = bs.length) ∧
    (∀ r, (execute_visualization_pipeline sstore astore sid runV saves uq qd).2.2
        = some r →
      (r.artifact_saved = "plot.png" ↔
        (loadArtifact (applySaves astore visAppName devUserId sid saves)
          visAppName devUserId sid "plot.png").isSome)) ∧
    (loadArtifact (applySaves pastore posterAppName devUserId psid psaves)
        posterAppName devUserId psid "generated_image.png" = none →
      ∃ r, (call_poster_agent pstore pastore psid prun psaves).2.2
          = some r ∧ r.artifact_saved = "No" ∧ r.artifact_size_bytes = 0) ∧
    (∀ p b bs, loadArtifact (applySaves pastore posterAppName devUserId psid psaves)
        posterAppName devUserId psid "generated_image.png" = some p →
      p.inline_data = some b → b.data = some bs →
      ∃ r, (call_poster_agent pstore pastore psid prun psaves).2.2
          = some r ∧ r.artifact_saved = "generated_image.png" ∧
          r.artifact_size_bytes = bs.length) ∧
    (∀ r, (call_poster_agent pstore pastore psid prun psaves).2.2 = some r →
      (r.artifact_saved = "generated_image.png" ↔
        (loadArtifact (applySaves pastore posterAppName devUserId psid psaves)
          posterAppName devUserId psid "generated_image.png").isSome)) := by
  refine ⟨?_, ?_, ?_, ?_, ?_, ?_⟩
  · intro hl
    simp only [execute_visualization_pipeline, getSession_run]
    rw [hl]
    exact ⟨_, rfl, rfl, rfl⟩
  · intro p b bs hl hb hbs
    simp only [execute_visualization_pipeline, getSession_run, hl, hb, hbs]
    exact ⟨_, rfl, rfl, rfl⟩
  · intro r h
    simp only [execute_visualization_pipeline, getSession_run] at h
    rcases hl : loadArtifact (applySaves astore visAppName devUserId sid saves)
        visAppName devUserId sid "plot.png" with _ | p
    · rw [hl] at h
      obtain rfl := (Option.some.inj h).symm
      simp
    · obtain ⟨pt, pid⟩ := p
      rcases pid with _ | b
      · rw [hl] at h
        exact Option.noConfusion h
      · obtain ⟨bmt, bd⟩ := b
        rcases bd with _ | bs
        · rw [hl] at h
          exact Option.noConfusion h
        · rw [hl] at h
          obtain rfl := (Option.some.inj h).symm
          simp
  · intro hl
    simp only [call_poster_agent]
    rw [hl]
    exact ⟨_, rfl, rfl, rfl⟩
  · intro p b bs hl hb hbs
    simp only [call_poster_agent, hl, hb, hbs]
    exact ⟨_, rfl, rfl, rfl⟩
  · intro r h
    simp only [call_poster_agent] at h
    rcases hl : loadArtifact (applySaves pastore posterAppName devUserId psid psaves)
        posterAppName devUserId psid "generated_image.png" with _ | p
    · rw [hl] at h
      obtain rfl := (Option.some.inj h).symm
      simp
    · obtain ⟨pt, pid⟩ := p
      rcases pid with _ | b
      · rw [hl] at h
        exact Option.noConfusion h
      · obtain ⟨bmt, bd⟩ := b
        rcases bd with _ | bs
        · rw [hl] at h
          exact Option.noConfusion h
        · rw [hl] at h
          obtain rfl := (Option.some.inj h).symm
          simp

/-- Witness for C4: a run that saved a three-byte `plot.png` reports it with
size 3, and a poster run whose store lacks `generated_image.png` reports the
`"No"` sentinel with size 0. -/
theorem c4_artifact_saved_iff_loadable_witness :
    (∃ r, (execute_visualization_pipeline [] [] "sv" id
        [("plot.png", ⟨none, some ⟨some "image/png", some [7, 8, 9]⟩⟩)]
        "uq" (.jarr [])).2.2
        = some r ∧ r.artifact_saved = "plot.png" ∧ r.artifact_size_bytes = 3) ∧
    (∃ r, (call_poster_agent [] [] "sp" id []).2.2
        = some r ∧ r.artifact_saved = "No" ∧ r.artifact_size_bytes = 0) :=
  ⟨((c4_artifact_saved_iff_loadable [] [] "sv" id
      [("plot.png", ⟨none, some ⟨some "image/png", some [7, 8, 9]⟩⟩)] "uq" (.jarr [])
      [] [] "sp" id []).2.1)
      ⟨none, some ⟨some "image/png", some [7, 8, 9]⟩⟩
      ⟨some "image/png", some [7, 8, 9]⟩ [7, 8, 9] rfl rfl rfl,
   ((c4_artifact_saved_iff_loadable [] [] "sv" id
      [("plot.png", ⟨none, some ⟨some "image/png", some [7, 8, 9]⟩⟩)] "uq" (.jarr [])
      [] [] "sp" id []).2.2.2.1) rfl⟩

/-- C2: every pipeline run creates its session under a freshly drawn
identifier (the `uuid.uuid4()` supply), so two invocations of the same
pipeline — even with identical inputs — use distinct session ids, the second
run returns exactly what it would return on the untouched stores (it reads no
state written by the first), and the first run's session entry is untouched
by the second (no overwrite). Stated for `execute_sql_pipeline` and
`execute_visualization_pipeline`. -/
theorem c2_session_isolation (supply : Nat) (store storeV : SessionStore)
    (astore : ArtifactStore)
    (run1 run2 runV1 runV2 : SessionState → SessionState)
    (saves1 saves2 : List (String × Part))
    (q1 q2 uq1 uq2 : String) (qd1 qd2 : JValue) :
    uuidOf supply ≠ uuidOf (supply + 1) ∧
    (execute_sql_pipeline (execute_sql_pipeline store (uuidOf supply) run1 q1).1
        (uuidOf (supply + 1)) run2 q2).2
      = (execute_sql_pipeline store (uuidOf (supply + 1)) run2 q2).2 ∧
    getSession (execute_sql_pipeline
        (execute_sql_pipeline store (uuidOf supply) run1 q1).1
        (uuidOf (supply + 1)) run2 q2).1 sqlAppName devUserId (uuidOf supply)
      = getSession (execute_sql_pipeline store (uuidOf supply) run1 q1).1
          sqlAppName devUserId (uuidOf supply) ∧
    (execute_visualization_pipeline
        (execute_visualization_pipeline storeV astore (uuidOf supply)
          runV1 saves1 uq1 qd1).1
        (execute_visualization_pipeline storeV astore (uuidOf supply)
          runV1 saves1 uq1 qd1).2.1
        (uuidOf (supply + 1)) runV2 saves2 uq2 qd2).2.2
      = (execute_visualization_pipeline storeV astore (uuidOf (supply + 1))
          runV2 saves2 uq2 qd2).2.2 ∧
    getSession (execute_visualization_pipeline
        (execute_visualization_pipeline storeV astore (uuidOf supply)
          runV1 saves1 uq1 qd1).1
        (execute_visualization_pipeline storeV astore (uuidOf supply)
          runV1 saves1 uq1 qd1).2.1
        (uuidOf (supply + 1)) runV2 saves2 uq2 qd2).1
        visAppName devUserId (uuidOf supply)
      = getSession (execute_visualization_pipeline storeV astore (uuidOf supply)
          runV1 saves1 uq1 qd1).1 visAppName devUserId (uuidOf supply) := by
  have hne : uuidOf supply ≠ uuidOf (supply + 1) := fun h => by
    have := uuidOf_injective h
    omega
  have hkeySql : ((sqlAppName, devUserId, uuidOf supply) : SessionKey)
      ≠ (sqlAppName, devUserId, uuidOf (supply + 1)) :=
    fun h => hne (congrArg (fun k : SessionKey => k.2.2) h)
  have hkeyVis : ((visAppName, devUserId, uuidOf supply) : SessionKey)
      ≠ (visAppName, devUserId, uuidOf (supply + 1)) :=
    fun h => hne (congrArg (fun k : SessionKey => k.2.2) h)
  refine ⟨hne, ?_, ?_, ?_, ?_⟩
  · rw [execute_sql_pipeline_eq (execute_sql_pipeline store (uuidOf supply) run1 q1).1
          (uuidOf (supply + 1)) run2 q2,
        execute_sql_pipeline_eq store (uuidOf (supply + 1)) run2 q2]
  · rw [execute_sql_pipeline_eq (execute_sql_pipeline store (uuidOf supply) run1 q1).1
          (uuidOf (supply + 1)) run2 q2]
    exact getSession_run_ne _ hkeySql _ _
  · rw [execute_visualization_pipeline_fst storeV, execute_visualization_pipeline_snd storeV]
    have hload : loadArtifact
        (applySaves (applySaves astore visAppName devUserId (uuidOf supply) saves1)
          visAppName devUserId (uuidOf (supply + 1)) saves2)
        visAppName devUserId (uuidOf (supply + 1)) "plot.png"
      = loadArtifact (applySaves astore visAppName devUserId (uuidOf (supply + 1)) saves2)
          visAppName devUserId (uuidOf (supply + 1)) "plot.png" :=
      loadArtifact_applySaves_congr _ _ _ saves2 _ _ _ _
        (loadArtifact_applySaves_other_session astore visAppName devUserId
          (fun h => hne h.symm) saves1 visAppName devUserId "plot.png")
    simp only [execute_visualization_pipeline, getSession_run, hload]
    rcases hl : loadArtifact
        (applySaves astore visAppName devUserId (uuidOf (supply + 1)) saves2)
        visAppName devUserId (uuidOf (supply + 1)) "plot.png" with _ | p
    · rfl
    · obtain ⟨pt, pid⟩ := p
      rcases pid with _ | b
      · rfl
      · obtain ⟨bmt, bd⟩ := b
        rcases bd with _ | bs <;> rfl
  · rw [execute_visualization_pipeline_fst
        (execute_visualization_pipeline storeV astore (uuidOf supply)
          runV1 saves1 uq1 qd1).1]
    exact getSession_run_ne _ hkeyVis _ _

end Serena
